import Mathlib

/-!
Shallow embedding of the rate-control simulator
(src/scripts/rate_control_sim.py) in Lean 4 over exact rationals.

The Python function `simulate` drives a per-video-frame buffer-fill
feedback loop: each frame it reads the (clamped) fill ratio, computes the
Arntzen proportional adjustment, multiplies by the display correction,
clamps the result into the safety interval, produces
r * base resampling factor / corrected_adjust samples, consumes
actual_consumption_rate / display_fps samples, and clamps the buffer level
back into the capacity interval.  Floats are modelled as exact rationals.
-/

namespace RateControlSim

/-- Clamp written exactly as in the source: max lo (min hi x). -/
def clampQ (lo hi x : ℚ) : ℚ := max lo (min hi x)

/-- Keyword parameters of the Python function simulate, with the source
defaults; measured_display and actual_consumption_rate keep the
None-defaulting of the source via Option. -/
structure SimConfig where
  display_fps : ℚ
  core_fps : ℚ
  core_audio_rate : ℚ := 32040
  host_audio_rate : ℚ := 48000
  buffer_size : ℚ := 4096
  d_param : ℚ := 1/200
  clamp : ℚ := 1/20
  frames : Nat := 3000
  initial_fill : ℚ := 1/2
  measured_display : Option ℚ := none
  actual_consumption_rate : Option ℚ := none

/-- Source: if measured_display is None it defaults to display_fps. -/
def measuredD (c : SimConfig) : ℚ := c.measured_display.getD c.display_fps

/-- Source: if actual_consumption_rate is None it defaults to host_audio_rate. -/
def actualC (c : SimConfig) : ℚ := c.actual_consumption_rate.getD c.host_audio_rate

/-- Source local r: input samples per frame, core_audio_rate / core_fps. -/
def rIn (c : SimConfig) : ℚ := c.core_audio_rate / c.core_fps

/-- Source local base resampling factor: host_audio_rate / core_audio_rate. -/
def base_r (c : SimConfig) : ℚ := c.host_audio_rate / c.core_audio_rate

/-- Source: display_correction = measured_display / core_fps. -/
def display_correction (c : SimConfig) : ℚ := measuredD c / c.core_fps

/-- Source: consumed_per_frame = actual_consumption_rate / display_fps. -/
def consumed_per_frame (c : SimConfig) : ℚ := actualC c / c.display_fps

/-- Source loop head: fill = clamp(buffer_level / buffer_size, 0, 1). -/
def fillOf (c : SimConfig) (level : ℚ) : ℚ := clampQ 0 1 (level / c.buffer_size)

/-- Source: rate_adjust = 1 - (1 - 2 * fill) * d_param (Arntzen formula). -/
def rate_adjust (c : SimConfig) (fill : ℚ) : ℚ := 1 - (1 - 2 * fill) * c.d_param

/-- Source: corrected_adjust = clamp(rate_adjust * display_correction,
1 - clamp, 1 + clamp). -/
def corrected_adjust (c : SimConfig) (fill : ℚ) : ℚ :=
  clampQ (1 - c.clamp) (1 + c.clamp) (rate_adjust c fill * display_correction c)

/-- Source: produced_per_frame = r * base factor / corrected_adjust. -/
def produced_per_frame (c : SimConfig) (fill : ℚ) : ℚ :=
  rIn c * base_r c / corrected_adjust c fill

/-- One iteration of the source loop acting on buffer_level:
buffer_level = clamp(buffer_level + produced - consumed, 0, buffer_size). -/
def stepLevel (c : SimConfig) (level : ℚ) : ℚ :=
  clampQ 0 c.buffer_size
    (level + produced_per_frame c (fillOf c level) - consumed_per_frame c)

/-- Source: buffer_level = buffer_size * initial_fill (note: not clamped). -/
def initLevel (c : SimConfig) : ℚ := c.buffer_size * c.initial_fill

/-- Buffer level at the start of frame k (before frame k runs);
levelAfter c k is also the level after the first k updates. -/
def levelAfter (c : SimConfig) : Nat → ℚ
  | 0 => initLevel c
  | k + 1 => stepLevel c (levelAfter c k)

/-- The source loop: run n frames from a given level, appending
fill * 100 (the fill seen at the start of the frame) each iteration. -/
def runAux (c : SimConfig) : Nat → ℚ → List ℚ
  | 0, _ => []
  | n + 1, level => (fillOf c level * 100) :: runAux c n (stepLevel c level)

/-- The full recorded history of the run. -/
def historyF (c : SimConfig) : List ℚ := runAux c c.frames (initLevel c)

/-- The dictionary the Python simulate returns. -/
structure SimResult where
  history : List ℚ
  final_fill : ℚ
  min_fill : ℚ
  max_fill : ℚ
  r : ℚ
  base_r : ℚ
  display_correction : ℚ
  base_output : ℚ
  consumed : ℚ
  measured_display : ℚ
  actual_consumption : ℚ

/-- The Python simulate: builds the history then the result dictionary.
On an empty history the Python code raises (history[-1] on an empty list),
modelled as none. -/
def simulate (c : SimConfig) : Option SimResult :=
  match historyF c with
  | [] => none
  | x :: xs =>
    some
      { history := x :: xs
        final_fill := (x :: xs).getLast (List.cons_ne_nil x xs)
        min_fill := xs.foldl min x
        max_fill := xs.foldl max x
        r := rIn c
        base_r := base_r c
        display_correction := display_correction c
        base_output := rIn c * base_r c
        consumed := consumed_per_frame c
        measured_display := measuredD c
        actual_consumption := actualC c }

/-! Basic lemmas about the clamp. -/

theorem clampQ_lo_le (lo hi x : ℚ) : lo ≤ clampQ lo hi x :=
  le_max_left lo (min hi x)

theorem clampQ_le_hi (lo hi x : ℚ) (h : lo ≤ hi) : clampQ lo hi x ≤ hi :=
  max_le h (min_le_left hi x)

theorem clampQ_eq_self (lo hi x : ℚ) (h1 : lo ≤ x) (h2 : x ≤ hi) :
    clampQ lo hi x = x := by
  unfold clampQ
  rw [min_eq_right h2, max_eq_right h1]

theorem clampQ_eq_lo (lo hi x : ℚ) (h1 : x ≤ lo) (h2 : lo ≤ hi) :
    clampQ lo hi x = lo := by
  unfold clampQ
  rw [min_eq_right (le_trans h1 h2), max_eq_left h1]

theorem clampQ_eq_hi (lo hi x : ℚ) (h1 : hi ≤ x) (h2 : lo ≤ hi) :
    clampQ lo hi x = hi := by
  unfold clampQ
  rw [min_eq_left h1, max_eq_right h2]

/-! Equation lemmas, proved once so later proofs can rewrite with them
without forcing kernel reduction through the recursors. -/

theorem levelAfter_zero (c : SimConfig) : levelAfter c 0 = initLevel c := by
  simp only [levelAfter]

theorem levelAfter_succ (c : SimConfig) (k : Nat) :
    levelAfter c (k + 1) = stepLevel c (levelAfter c k) := by
  simp only [levelAfter]

theorem runAux_zero (c : SimConfig) (level : ℚ) : runAux c 0 level = [] := by
  simp only [runAux]

theorem runAux_succ (c : SimConfig) (n : Nat) (level : ℚ) :
    runAux c (n + 1) level =
      (fillOf c level * 100) :: runAux c n (stepLevel c level) := by
  simp only [runAux]

/-! Basic lemmas about the run. -/

theorem runAux_length (c : SimConfig) : ∀ (n : Nat) (level : ℚ),
    (runAux c n level).length = n := by
  intro n
  induction n with
  | zero => intro level; rw [runAux_zero]; rfl
  | succ m ih =>
    intro level
    rw [runAux_succ, List.length_cons, ih]

theorem historyF_length (c : SimConfig) : (historyF c).length = c.frames :=
  runAux_length c c.frames (initLevel c)

/-- If one step fixes the level, every later level equals the initial one. -/
theorem levelAfter_const (c : SimConfig)
    (h : stepLevel c (initLevel c) = initLevel c) :
    ∀ k, levelAfter c k = initLevel c := by
  intro k
  induction k with
  | zero => exact levelAfter_zero c
  | succ m ih => rw [levelAfter_succ, ih, h]

/-- If one step fixes the level, the run is constant. -/
theorem runAux_const (c : SimConfig) (level : ℚ)
    (h : stepLevel c level = level) :
    ∀ n, runAux c n level = List.replicate n (fillOf c level * 100) := by
  intro n
  induction n with
  | zero => rw [runAux_zero, List.replicate_zero]
  | succ m ih => rw [runAux_succ, h, ih, List.replicate_succ]

/-- Iterating the loop body k times from a given level. -/
def stepIter (c : SimConfig) : Nat → ℚ → ℚ
  | 0, level => level
  | k + 1, level => stepIter c k (stepLevel c level)

theorem stepIter_zero (c : SimConfig) (level : ℚ) : stepIter c 0 level = level := by
  simp only [stepIter]

theorem stepIter_succ (c : SimConfig) (k : Nat) (level : ℚ) :
    stepIter c (k + 1) level = stepIter c k (stepLevel c level) := by
  simp only [stepIter]

theorem stepIter_comm (c : SimConfig) :
    ∀ (k : Nat) (level : ℚ),
      stepIter c k (stepLevel c level) = stepLevel c (stepIter c k level) := by
  intro k
  induction k with
  | zero => intro level; rw [stepIter_zero, stepIter_zero]
  | succ m ih =>
    intro level
    rw [stepIter_succ, stepIter_succ, ih]

theorem stepIter_initLevel (c : SimConfig) :
    ∀ k, stepIter c k (initLevel c) = levelAfter c k := by
  intro k
  induction k with
  | zero => rw [stepIter_zero, levelAfter_zero]
  | succ m ih =>
    rw [stepIter_succ, stepIter_comm, ih, levelAfter_succ]

theorem runAux_getElem? (c : SimConfig) :
    ∀ (k n : Nat) (level : ℚ), k < n →
      (runAux c n level)[k]? = some (fillOf c (stepIter c k level) * 100) := by
  intro k
  induction k with
  | zero =>
    intro n level hn
    match n, hn with
    | m + 1, _ =>
      rw [runAux_succ, stepIter_zero, List.getElem?_cons_zero]
  | succ j ih =>
    intro n level hn
    match n, hn with
    | m + 1, hn =>
      rw [runAux_succ, stepIter_succ, List.getElem?_cons_succ]
      exact ih m (stepLevel c level) (Nat.lt_of_succ_lt_succ hn)

theorem historyF_getElem? (c : SimConfig) (k : Nat) (hk : k < c.frames) :
    (historyF c)[k]? = some (fillOf c (levelAfter c k) * 100) := by
  rw [historyF, runAux_getElem? c k c.frames (initLevel c) hk,
    stepIter_initLevel]

theorem historyF_getLast? (c : SimConfig) (hk : 1 ≤ c.frames) :
    (historyF c).getLast? = some (fillOf c (levelAfter c (c.frames - 1)) * 100) := by
  rw [List.getLast?_eq_getElem?, historyF_length,
    historyF_getElem? c (c.frames - 1) (Nat.sub_lt hk Nat.one_pos)]

/-! Helper lemmas about the clamped correction factor. -/

theorem corrected_adjust_lower (c : SimConfig) (fill : ℚ) :
    1 - c.clamp ≤ corrected_adjust c fill :=
  clampQ_lo_le (1 - c.clamp) (1 + c.clamp)
    (rate_adjust c fill * display_correction c)

theorem corrected_adjust_upper (c : SimConfig) (fill : ℚ) (h : 0 ≤ c.clamp) :
    corrected_adjust c fill ≤ 1 + c.clamp :=
  clampQ_le_hi (1 - c.clamp) (1 + c.clamp)
    (rate_adjust c fill * display_correction c) (by linarith)

theorem corrected_adjust_pos (c : SimConfig) (fill : ℚ) (h : c.clamp < 1) :
    0 < corrected_adjust c fill :=
  lt_of_lt_of_le (by linarith) (corrected_adjust_lower c fill)

/-- A concrete configuration: the default scenario of the source main. -/
def cfgA : SimConfig := { display_fps := 5971/100, core_fps := 601/10 }

/-- C2: for every configuration with 0 ≤ safety_clamp < 1 and every frame,
the emitted corrected_adjust lies in the interval from 1 - safety_clamp to
1 + safety_clamp, and whenever the unclamped product
rate_adjust * display_correction falls outside the interval the emitted
value is exactly the nearest bound. -/
theorem C2_clamp_bounds (c : SimConfig) (h0 : 0 ≤ c.clamp) (h1 : c.clamp < 1)
    (k : Nat) :
    (1 - c.clamp ≤ corrected_adjust c (fillOf c (levelAfter c k)) ∧
      corrected_adjust c (fillOf c (levelAfter c k)) ≤ 1 + c.clamp) ∧
    (rate_adjust c (fillOf c (levelAfter c k)) * display_correction c <
        1 - c.clamp →
      corrected_adjust c (fillOf c (levelAfter c k)) = 1 - c.clamp) ∧
    (1 + c.clamp <
        rate_adjust c (fillOf c (levelAfter c k)) * display_correction c →
      corrected_adjust c (fillOf c (levelAfter c k)) = 1 + c.clamp) := by
  refine ⟨⟨corrected_adjust_lower c _, corrected_adjust_upper c _ h0⟩,
    fun h => ?_, fun h => ?_⟩
  · exact clampQ_eq_lo _ _ _ (le_of_lt h) (by linarith)
  · exact clampQ_eq_hi _ _ _ (le_of_lt h) (by linarith)

/-- Witness for C2 at the default scenario configuration, frame 0. -/
theorem C2_clamp_bounds_witness :
    (0 : ℚ) ≤ cfgA.clamp ∧ cfgA.clamp < 1 ∧
    ((1 - cfgA.clamp ≤ corrected_adjust cfgA (fillOf cfgA (levelAfter cfgA 0)) ∧
      corrected_adjust cfgA (fillOf cfgA (levelAfter cfgA 0)) ≤ 1 + cfgA.clamp) ∧
    (rate_adjust cfgA (fillOf cfgA (levelAfter cfgA 0)) * display_correction cfgA <
        1 - cfgA.clamp →
      corrected_adjust cfgA (fillOf cfgA (levelAfter cfgA 0)) = 1 - cfgA.clamp) ∧
    (1 + cfgA.clamp <
        rate_adjust cfgA (fillOf cfgA (levelAfter cfgA 0)) * display_correction cfgA →
      corrected_adjust cfgA (fillOf cfgA (levelAfter cfgA 0)) = 1 + cfgA.clamp)) :=
  ⟨by norm_num [cfgA], by norm_num [cfgA],
    C2_clamp_bounds cfgA (by norm_num [cfgA]) (by norm_num [cfgA]) 0⟩

/-- C9: for every configuration with 0 ≤ safety_clamp < 1 and every frame,
the clamped corrected_adjust used as the production divisor is at least
1 - safety_clamp, which is positive, so the division is well defined. -/
theorem C9_divisor_positive (c : SimConfig) (h0 : 0 ≤ c.clamp)
    (h1 : c.clamp < 1) (k : Nat) :
    1 - c.clamp ≤ corrected_adjust c (fillOf c (levelAfter c k)) ∧
    0 < 1 - c.clamp ∧
    0 < corrected_adjust c (fillOf c (levelAfter c k)) :=
  ⟨corrected_adjust_lower c _, by linarith, corrected_adjust_pos c _ h1⟩

/-- Witness for C9 at the default scenario configuration, frame 0. -/
theorem C9_divisor_positive_witness :
    (0 : ℚ) ≤ cfgA.clamp ∧ cfgA.clamp < 1 ∧
    (1 - cfgA.clamp ≤ corrected_adjust cfgA (fillOf cfgA (levelAfter cfgA 0)) ∧
    0 < 1 - cfgA.clamp ∧
    0 < corrected_adjust cfgA (fillOf cfgA (levelAfter cfgA 0))) :=
  ⟨by norm_num [cfgA], by norm_num [cfgA],
    C9_divisor_positive cfgA (by norm_num [cfgA]) (by norm_num [cfgA]) 0⟩

/-- Configuration refuting C1 as stated: the source sets the initial level
to buffer_size * initial_fill without clamping it. -/
def cexC1 : SimConfig :=
  { display_fps := 60, core_fps := 60, buffer_size := 100, initial_fill := 2 }

/-- C1 counterexample: with initial_fill = 2 and capacity 100 the buffer
level before the first update is 200, above the capacity, so the invariant
does not hold at the very start of the run for every configuration. -/
theorem C1_counterexample :
    levelAfter cexC1 0 = 200 ∧ cexC1.buffer_size = 100 ∧
    ¬ levelAfter cexC1 0 ≤ cexC1.buffer_size := by
  have h : levelAfter cexC1 0 = 200 := by
    rw [levelAfter_zero, initLevel]
    norm_num [cexC1]
  refine ⟨h, by norm_num [cexC1], ?_⟩
  rw [h]
  norm_num [cexC1]

/-- C1 amended: for every configuration with nonnegative capacity whose
initial fill lies in the unit interval, the buffer level stays between 0
and the capacity before and after every per-frame update (the update
clamps unconditionally; the start level is in bounds because the initial
fill is). -/
theorem C1_level_invariant (c : SimConfig) (hb : 0 ≤ c.buffer_size)
    (h0 : 0 ≤ c.initial_fill) (h1 : c.initial_fill ≤ 1) :
    ∀ k, 0 ≤ levelAfter c k ∧ levelAfter c k ≤ c.buffer_size := by
  intro k
  induction k with
  | zero =>
    rw [levelAfter_zero, initLevel]
    constructor
    · exact mul_nonneg hb h0
    · calc c.buffer_size * c.initial_fill ≤ c.buffer_size * 1 :=
          mul_le_mul_of_nonneg_left h1 hb
        _ = c.buffer_size := mul_one _
  | succ m ih =>
    rw [levelAfter_succ, stepLevel]
    exact ⟨clampQ_lo_le _ _ _, clampQ_le_hi _ _ _ hb⟩

/-- Witness for the amended C1 at the default scenario configuration. -/
theorem C1_level_invariant_witness :
    (0 : ℚ) ≤ cfgA.buffer_size ∧ 0 ≤ cfgA.initial_fill ∧
    cfgA.initial_fill ≤ 1 ∧
    (0 ≤ levelAfter cfgA 1 ∧ levelAfter cfgA 1 ≤ cfgA.buffer_size) :=
  ⟨by norm_num [cfgA], by norm_num [cfgA], by norm_num [cfgA],
    C1_level_invariant cfgA (by norm_num [cfgA]) (by norm_num [cfgA])
      (by norm_num [cfgA]) 1⟩

/-- Configuration refuting C5 as stated: feedback_gain zero is a valid
configuration (the spec only requires 0 ≤ feedback_gain) under which the
feedback law is constant. -/
def cexC5 : SimConfig := { display_fps := 60, core_fps := 60, d_param := 0 }

/-- C5 counterexample: with feedback_gain = 0 the feedback law is constant,
so it is not strictly increasing: it takes the same value at fill 0 and at
fill one half. -/
theorem C5_counterexample :
    cexC5.d_param = 0 ∧
    ¬ (∀ fa fb : ℚ, fa < fb → fb ≤ 1/2 →
        rate_adjust cexC5 fa < rate_adjust cexC5 fb) := by
  refine ⟨by norm_num [cexC5], fun h => ?_⟩
  have h2 := h 0 (1/2) (by norm_num) (le_refl _)
  rw [rate_adjust, rate_adjust] at h2
  norm_num [cexC5] at h2

/-- C5 amended: for every configuration with feedback_gain strictly
positive, the feedback law rate_adjust is strictly increasing in fill
(globally, hence on both sides of the one half setpoint). -/
theorem C5_feedback_monotone (c : SimConfig) (hd : 0 < c.d_param)
    (fa fb : ℚ) (hab : fa < fb) :
    rate_adjust c fa < rate_adjust c fb := by
  rw [rate_adjust, rate_adjust]
  have := mul_lt_mul_of_pos_right (show 1 - 2 * fb < 1 - 2 * fa by linarith) hd
  linarith

/-- Witness for the amended C5 at the default scenario configuration. -/
theorem C5_feedback_monotone_witness :
    (0 : ℚ) < cfgA.d_param ∧ (0 : ℚ) < 1/2 ∧
    rate_adjust cfgA 0 < rate_adjust cfgA (1/2) :=
  ⟨by norm_num [cfgA], by norm_num,
    C5_feedback_monotone cfgA (by norm_num [cfgA]) 0 (1/2) (by norm_num)⟩

/-- A matched-clock concrete configuration (display equals core cadence). -/
def cfgB : SimConfig := { display_fps := 60, core_fps := 60 }

/-- A zero-frame run of the matched-clock configuration. -/
def cfgZeroFrames : SimConfig :=
  { display_fps := 60, core_fps := 60, frames := 0 }

/-- A three-frame run of the matched-clock configuration. -/
def cfgThreeFrames : SimConfig :=
  { display_fps := 60, core_fps := 60, frames := 3 }

/-- C6: on any frame whose buffer update does not saturate at 0 or at the
capacity, the buffer level is left unchanged by the step iff the frame's
corrected_adjust equals (r * base factor) / consumed_per_frame, the
equilibrium value validated by the source main. -/
theorem C6_equilibrium (c : SimConfig) (hdisp : 0 < c.display_fps)
    (hact : 0 < actualC c) (h1 : c.clamp < 1) (level : ℚ)
    (hlo : 0 ≤ level + produced_per_frame c (fillOf c level) -
      consumed_per_frame c)
    (hhi : level + produced_per_frame c (fillOf c level) -
      consumed_per_frame c ≤ c.buffer_size) :
    stepLevel c level = level ↔
      corrected_adjust c (fillOf c level) =
        rIn c * base_r c / consumed_per_frame c := by
  have hcons : 0 < consumed_per_frame c := div_pos hact hdisp
  have hca : 0 < corrected_adjust c (fillOf c level) :=
    corrected_adjust_pos c _ h1
  rw [stepLevel, clampQ_eq_self _ _ _ hlo hhi]
  constructor
  · intro h
    have hpc : produced_per_frame c (fillOf c level) =
        consumed_per_frame c := by linarith
    rw [produced_per_frame, div_eq_iff (ne_of_gt hca)] at hpc
    rw [eq_div_iff (ne_of_gt hcons)]
    linarith [hpc]
  · intro h
    have h2 : corrected_adjust c (fillOf c level) * consumed_per_frame c =
        rIn c * base_r c := by
      rw [h, div_mul_eq_mul_div, mul_div_assoc,
        div_self (ne_of_gt hcons), mul_one]
    have hp : produced_per_frame c (fillOf c level) =
        consumed_per_frame c := by
      rw [produced_per_frame, ← h2, mul_comm, mul_div_assoc,
        div_self (ne_of_gt hca), mul_one]
    linarith

/-- Witness for C6: matched-clock configuration at the half-full level,
where the step is a no-op and the correction equals the equilibrium value. -/
theorem C6_equilibrium_witness :
    (0 : ℚ) < cfgB.display_fps ∧ 0 < actualC cfgB ∧ cfgB.clamp < 1 ∧
    0 ≤ 2048 + produced_per_frame cfgB (fillOf cfgB 2048) -
      consumed_per_frame cfgB ∧
    2048 + produced_per_frame cfgB (fillOf cfgB 2048) -
      consumed_per_frame cfgB ≤ cfgB.buffer_size ∧
    (stepLevel cfgB 2048 = 2048 ↔
      corrected_adjust cfgB (fillOf cfgB 2048) =
        rIn cfgB * base_r cfgB / consumed_per_frame cfgB) :=
  ⟨by norm_num [cfgB], by norm_num [cfgB, actualC], by norm_num [cfgB],
    by norm_num [cfgB, produced_per_frame, consumed_per_frame, fillOf,
      corrected_adjust, rate_adjust, display_correction, rIn, base_r,
      measuredD, actualC, clampQ, min_def, max_def],
    by norm_num [cfgB, produced_per_frame, consumed_per_frame, fillOf,
      corrected_adjust, rate_adjust, display_correction, rIn, base_r,
      measuredD, actualC, clampQ, min_def, max_def],
    C6_equilibrium cfgB (by norm_num [cfgB]) (by norm_num [cfgB, actualC])
      (by norm_num [cfgB]) 2048
      (by norm_num [cfgB, produced_per_frame, consumed_per_frame, fillOf,
        corrected_adjust, rate_adjust, display_correction, rIn, base_r,
        measuredD, actualC, clampQ, min_def, max_def])
      (by norm_num [cfgB, produced_per_frame, consumed_per_frame, fillOf,
        corrected_adjust, rate_adjust, display_correction, rIn, base_r,
        measuredD, actualC, clampQ, min_def, max_def])⟩

/-- C10: the harness result is only defined for runs of at least one
frame; with frames = 0 the result construction fails (the Python code
indexes the last element of an empty history), and with frames ≥ 1 it
returns a result whose recorded trajectory has exactly frames entries. -/
theorem C10_needs_one_frame (c : SimConfig) :
    (c.frames = 0 → simulate c = none) ∧
    (1 ≤ c.frames →
      ∃ res, simulate c = some res ∧ res.history.length = c.frames) := by
  constructor
  · intro h
    have hnil : historyF c = [] := by
      have hl := historyF_length c
      rw [h] at hl
      exact List.length_eq_zero.mp hl
    rw [simulate, hnil]
  · intro h
    cases hh : historyF c with
    | nil =>
      exfalso
      have hl := historyF_length c
      rw [hh, List.length_nil] at hl
      omega
    | cons x xs =>
      have hs : simulate c = some
          { history := x :: xs
            final_fill := (x :: xs).getLast (List.cons_ne_nil x xs)
            min_fill := xs.foldl min x
            max_fill := xs.foldl max x
            r := rIn c
            base_r := base_r c
            display_correction := display_correction c
            base_output := rIn c * base_r c
            consumed := consumed_per_frame c
            measured_display := measuredD c
            actual_consumption := actualC c } := by
        rw [simulate, hh]
      refine ⟨_, hs, ?_⟩
      show (x :: xs).length = c.frames
      rw [← hh, historyF_length]

/-- Witness for C10: a zero-frame run fails, a three-frame run returns a
three-entry trajectory. -/
theorem C10_needs_one_frame_witness :
    cfgZeroFrames.frames = 0 ∧ simulate cfgZeroFrames = none ∧
    1 ≤ cfgThreeFrames.frames ∧
    (∃ res, simulate cfgThreeFrames = some res ∧
      res.history.length = cfgThreeFrames.frames) :=
  ⟨rfl, (C10_needs_one_frame cfgZeroFrames).1 rfl, by norm_num [cfgThreeFrames],
    (C10_needs_one_frame cfgThreeFrames).2 (by norm_num [cfgThreeFrames])⟩

/-- Under matched clocks (display cadence equal to core cadence, actual
consumption equal to the host rate, measured display left at its default)
and a half-full start, the fill is one half and one step leaves the level
unchanged. -/
theorem matched_clock_fixed (c : SimConfig)
    (hb : 0 < c.buffer_size) (hf : 0 < c.core_fps)
    (ha : c.core_audio_rate ≠ 0) (hc : 0 ≤ c.clamp)
    (hd : c.display_fps = c.core_fps)
    (hm : measuredD c = c.display_fps)
    (hx : actualC c = c.host_audio_rate)
    (hi : c.initial_fill = 1/2) :
    fillOf c (initLevel c) * 100 = 50 ∧
    stepLevel c (initLevel c) = initLevel c := by
  have hinit : initLevel c = c.buffer_size / 2 := by
    rw [initLevel, hi]
    ring
  have hfill : fillOf c (initLevel c) = 1/2 := by
    rw [fillOf, hinit, div_right_comm, div_self (ne_of_gt hb)]
    exact clampQ_eq_self 0 1 (1/2) (by norm_num) (by norm_num)
  have hra : rate_adjust c (1/2) = 1 := by
    rw [rate_adjust]
    ring
  have hdc : display_correction c = 1 := by
    rw [display_correction, hm, hd, div_self (ne_of_gt hf)]
  have hca : corrected_adjust c (1/2) = 1 := by
    rw [corrected_adjust, hra, hdc, one_mul]
    exact clampQ_eq_self _ _ _ (by linarith) (by linarith)
  have hprod : produced_per_frame c (1/2) =
      c.host_audio_rate / c.core_fps := by
    rw [produced_per_frame, hca, div_one, rIn, base_r]
    field_simp
    ring
  have hcons : consumed_per_frame c = c.host_audio_rate / c.core_fps := by
    rw [consumed_per_frame, hx, hd]
  have hstep : stepLevel c (initLevel c) = initLevel c := by
    rw [stepLevel, hfill, hprod, hcons]
    have harith : initLevel c + c.host_audio_rate / c.core_fps -
        c.host_audio_rate / c.core_fps = initLevel c := by ring
    rw [harith, hinit]
    exact clampQ_eq_self _ _ _ (by linarith) (by linarith)
  exact ⟨by rw [hfill]; norm_num, hstep⟩

/-- C3: for any configuration with matched clocks (display refresh equal
to the core cadence and actual consumption equal to the host audio rate,
with measured rates at their defaults) and valid rates, starting at fill
one half, every entry of the recorded fill trajectory over a run of at
least 1000 frames stays within one percentage point of one half: there is
no drift without disturbance. -/
theorem C3_matched_clock_no_drift (c : SimConfig)
    (hb : 0 < c.buffer_size) (hf : 0 < c.core_fps)
    (ha : c.core_audio_rate ≠ 0) (hc : 0 ≤ c.clamp)
    (hd : c.display_fps = c.core_fps)
    (hm : measuredD c = c.display_fps)
    (hx : actualC c = c.host_audio_rate)
    (hi : c.initial_fill = 1/2)
    (hn : 1000 ≤ c.frames) :
    ∀ x ∈ historyF c, |x / 100 - 1/2| ≤ 1/100 := by
  obtain ⟨hfill, hstep⟩ := matched_clock_fixed c hb hf ha hc hd hm hx hi
  intro x hmem
  rw [historyF, runAux_const c (initLevel c) hstep] at hmem
  have hx50 := List.eq_of_mem_replicate hmem
  rw [hx50, hfill]
  norm_num

/-- The matched-clock configuration for the C3 witness, 1000 frames. -/
def cfgC3 : SimConfig := { display_fps := 60, core_fps := 60, frames := 1000 }

/-- Witness for C3 at a matched-clock configuration over 1000 frames. -/
theorem C3_matched_clock_no_drift_witness :
    (0 : ℚ) < cfgC3.buffer_size ∧ (0 : ℚ) < cfgC3.core_fps ∧
    cfgC3.core_audio_rate ≠ 0 ∧ (0 : ℚ) ≤ cfgC3.clamp ∧
    cfgC3.display_fps = cfgC3.core_fps ∧
    measuredD cfgC3 = cfgC3.display_fps ∧
    actualC cfgC3 = cfgC3.host_audio_rate ∧
    cfgC3.initial_fill = 1/2 ∧ 1000 ≤ cfgC3.frames ∧
    ∀ x ∈ historyF cfgC3, |x / 100 - 1/2| ≤ 1/100 :=
  ⟨by norm_num [cfgC3], by norm_num [cfgC3], by norm_num [cfgC3],
    by norm_num [cfgC3], rfl, rfl, rfl, rfl, by norm_num [cfgC3],
    C3_matched_clock_no_drift cfgC3 (by norm_num [cfgC3])
      (by norm_num [cfgC3]) (by norm_num [cfgC3]) (by norm_num [cfgC3])
      rfl rfl rfl rfl (by norm_num [cfgC3])⟩

/-- Last element of a nonempty constant list. -/
theorem replicate_getLast? (x : ℚ) :
    ∀ n, (List.replicate (n + 1) x).getLast? = some x := by
  intro n
  induction n with
  | zero => rfl
  | succ m ih =>
    rw [List.replicate_succ, List.replicate_succ, List.getLast?_cons_cons,
      ← List.replicate_succ, ih]

/-- For a run of at least one frame, simulate returns a result whose
history is the recorded trajectory and whose final fill is its last
entry. -/
theorem simulate_final_fill (c : SimConfig) (h : 1 ≤ c.frames) :
    ∃ res, simulate c = some res ∧ res.history = historyF c ∧
      some res.final_fill = (historyF c).getLast? := by
  cases hh : historyF c with
  | nil =>
    exfalso
    have hl := historyF_length c
    rw [hh, List.length_nil] at hl
    omega
  | cons x xs =>
    have hs : simulate c = some
        { history := x :: xs
          final_fill := (x :: xs).getLast (List.cons_ne_nil x xs)
          min_fill := xs.foldl min x
          max_fill := xs.foldl max x
          r := rIn c
          base_r := base_r c
          display_correction := display_correction c
          base_output := rIn c * base_r c
          consumed := consumed_per_frame c
          measured_display := measuredD c
          actual_consumption := actualC c } := by
      rw [simulate, hh]
    refine ⟨_, hs, rfl, ?_⟩
    exact (List.getLast?_eq_getLast (x :: xs) (List.cons_ne_nil x xs)).symm

/-- The scenario configuration of C4 is the default scenario cfgA: core
audio 32040, host audio 48000, core cadence 60.10, display 59.71, gain
0.005, clamp 0.05, capacity 4096, initial fill one half, 3000 frames.
At fill one half the corrected adjustment is exactly the display
correction 5971/6010, which the clamp leaves alone, and production equals
consumption, so one step leaves the level at 2048. -/
theorem cfgA_step_fixed :
    initLevel cfgA = 2048 ∧ fillOf cfgA 2048 * 100 = 50 ∧
    stepLevel cfgA 2048 = 2048 := by
  refine ⟨by rw [initLevel]; norm_num [cfgA], ?_, ?_⟩
  · norm_num [fillOf, clampQ, cfgA, min_def, max_def]
  · norm_num [stepLevel, produced_per_frame, consumed_per_frame,
      corrected_adjust, rate_adjust, display_correction, rIn, base_r,
      fillOf, measuredD, actualC, clampQ, cfgA, min_def, max_def]

/-- C4: in the scenario with core audio 32040 Hz, host audio 48000 Hz,
core cadence 60.10 Hz, display 59.71 Hz, gain 0.005, clamp 0.05, capacity
4096 and initial fill one half, the recorded fill ratio of every one of
the 3000 simulated frames is strictly between 0 and 1, and the final fill
ratio is strictly between 0 and 1: the compensation term prevents the
clock mismatch from saturating the buffer. -/
theorem C4_scenario :
    (historyF cfgA).length = 3000 ∧
    (∀ x ∈ historyF cfgA, 0 < x / 100 ∧ x / 100 < 1) ∧
    ∃ res, simulate cfgA = some res ∧ res.final_fill = 50 ∧
      0 < res.final_fill / 100 ∧ res.final_fill / 100 < 1 := by
  obtain ⟨hinit, hfill, hstep⟩ := cfgA_step_fixed
  have hrep : historyF cfgA = List.replicate 3000 50 := by
    rw [historyF, show cfgA.frames = 3000 from rfl, hinit,
      runAux_const cfgA 2048 hstep 3000, hfill]
  refine ⟨by rw [hrep, List.length_replicate], ?_, ?_⟩
  · intro x hmem
    rw [hrep] at hmem
    have hx50 := List.eq_of_mem_replicate hmem
    rw [hx50]
    norm_num
  · obtain ⟨res, hs, hhist, hfin⟩ :=
      simulate_final_fill cfgA (by norm_num [cfgA])
    have hlast : (historyF cfgA).getLast? = some 50 := by
      rw [hrep, show (3000 : Nat) = 2999 + 1 from rfl]
      exact replicate_getLast? 50 2999
    have hfin50 : res.final_fill = 50 := Option.some.inj (hfin.trans hlast)
    exact ⟨res, hs, hfin50, by rw [hfin50]; norm_num,
      by rw [hfin50]; norm_num⟩

/-- Configuration refuting C7 as stated: one frame, production 10 and
consumption 20 per frame, so the level moves from 50 to 40 during the
single update while the recorded value stays the frame-start fill. -/
def cexC7 : SimConfig :=
  { display_fps := 1, core_fps := 1, core_audio_rate := 1,
    host_audio_rate := 10, buffer_size := 100, d_param := 0,
    clamp := 1/20, frames := 1, initial_fill := 1/2,
    measured_display := none, actual_consumption_rate := some 20 }

/-- C7 counterexample: on a one-frame run whose update drains the buffer
from fill one half to fill two fifths, the returned final fill is 50
(percent, the pre-update fill), while the post-update fill of that frame
is 40 percent, so the recorded values are not post-update fill ratios. -/
theorem C7_counterexample :
    (∃ res, simulate cexC7 = some res ∧ res.final_fill = 50) ∧
    fillOf cexC7 (levelAfter cexC7 1) * 100 = 40 ∧ (50 : ℚ) ≠ 40 := by
  have hinit : initLevel cexC7 = 50 := by
    rw [initLevel]
    norm_num [cexC7]
  have hfill : fillOf cexC7 50 * 100 = 50 := by
    norm_num [fillOf, clampQ, cexC7, min_def, max_def]
  have hstep : stepLevel cexC7 50 = 40 := by
    norm_num [stepLevel, produced_per_frame, consumed_per_frame,
      corrected_adjust, rate_adjust, display_correction, rIn, base_r,
      fillOf, measuredD, actualC, clampQ, cexC7, min_def, max_def]
  have hh : historyF cexC7 = [50] := by
    rw [historyF, show cexC7.frames = 0 + 1 from rfl, runAux_succ,
      runAux_zero, hinit, hfill]
  refine ⟨?_, ?_, by norm_num⟩
  · obtain ⟨res, hs, hhist, hfin⟩ :=
      simulate_final_fill cexC7 (by norm_num [cexC7])
    have hlast : (historyF cexC7).getLast? = some 50 := by
      rw [hh]
      rfl
    exact ⟨res, hs, Option.some.inj (hfin.trans hlast)⟩
  · rw [show (1 : Nat) = 0 + 1 from rfl, levelAfter_succ, levelAfter_zero,
      hinit, hstep]
    norm_num [fillOf, clampQ, cexC7, min_def, max_def]

/-- C7 amended: entry k of the recorded trajectory is the pre-update
(frame-start) fill ratio of frame k, times 100, and the final recorded
value is the pre-update fill of the last frame; the minimum, maximum and
final statistics are therefore over pre-update fill ratios. -/
theorem C7_records_preupdate_fill (c : SimConfig) (k : Nat)
    (hk : k < c.frames) :
    (historyF c)[k]? = some (fillOf c (levelAfter c k) * 100) ∧
    (historyF c).getLast? =
      some (fillOf c (levelAfter c (c.frames - 1)) * 100) :=
  ⟨historyF_getElem? c k hk,
    historyF_getLast? c (Nat.lt_of_le_of_lt (Nat.zero_le k) hk)⟩

/-- Witness for the amended C7 at the default scenario configuration,
frame 0. -/
theorem C7_records_preupdate_fill_witness :
    0 < cfgA.frames ∧
    ((historyF cfgA)[0]? = some (fillOf cfgA (levelAfter cfgA 0) * 100) ∧
    (historyF cfgA).getLast? =
      some (fillOf cfgA (levelAfter cfgA (cfgA.frames - 1)) * 100)) :=
  ⟨by norm_num [cfgA], C7_records_preupdate_fill cfgA 0 (by norm_num [cfgA])⟩

/-- A family of configurations with an invalid safety clamp (clamp 2 ≥ 1)
and positive rates, running n frames. -/
def cfgClampTooBig (n : Nat) : SimConfig :=
  { display_fps := 60, core_fps := 60, clamp := 2, frames := n }

/-- A family of configurations with a negative nominal rate, running n
frames. -/
def cfgNegativeRate (n : Nat) : SimConfig :=
  { display_fps := 60, core_fps := 60, core_audio_rate := -32040,
    frames := n }

/-- C8 counterexample: a configuration with safety_clamp = 2 ≥ 1 is
invalid, yet the control loop executes all three requested frames (the
recorded trajectory has three entries); no detection or report happens
before per-frame computation. -/
theorem C8_counterexample :
    (1 : ℚ) ≤ (cfgClampTooBig 3).clamp ∧
    (historyF (cfgClampTooBig 3)).length = 3 := by
  refine ⟨by norm_num [cfgClampTooBig], ?_⟩
  rw [historyF_length]
  rfl

/-- C8 amended: the source performs no configuration validation: for any
frame count, a configuration with safety_clamp ≥ 1, or one with a
negative nominal rate, runs every requested frame of the loop; invalid
configurations are not detected or reported at setup (a zero rate only
aborts the Python run through an unchecked division at first use). -/
theorem C8_no_validation (n : Nat) :
    ((1 : ℚ) ≤ (cfgClampTooBig n).clamp ∧
      (historyF (cfgClampTooBig n)).length = n) ∧
    ((cfgNegativeRate n).core_audio_rate < 0 ∧
      (historyF (cfgNegativeRate n)).length = n) := by
  refine ⟨⟨by norm_num [cfgClampTooBig], ?_⟩,
    by norm_num [cfgNegativeRate], ?_⟩
  · rw [historyF_length]
    rfl
  · rw [historyF_length]
    rfl

end RateControlSim
